import Mathlib

/-!
Verification of the `worker` package of go-sqs-poller (src/worker/worker.go):
a shallow embedding of the poll-dispatch-acknowledge loop, the per-message
error-classification pipeline `handleMessage`, the batch dispatcher `run`,
and the configuration defaults, together with theorems settling the spec's
claims about them.
-/

namespace Worker

/--
Model of the dynamic Go `error` values that can flow through this package.
The source declares the concrete struct type `InvalidEventError` (value
receiver `Error()`, worker.go lines 31-38).  A Go `error` interface value
carries a dynamic type, and the type assertion `err.(InvalidEventError)`
at worker.go line 121 succeeds only for the concrete value type, so the
model distinguishes:
  * `invalidEvent ev msg`    — a value of type `InvalidEventError`;
  * `invalidEventPtr ev msg` — a `*InvalidEventError` pointer (also satisfies
    the `error` interface via the value-receiver method set);
  * `wrapped ctx inner`      — an error wrapping another (e.g. `fmt.Errorf`
    with `%w`), whose text prefixes the inner error's text;
  * `other text`             — any other error value.
-/
inductive GoError where
  | invalidEvent (event : String) (msg : String)
  | invalidEventPtr (event : String) (msg : String)
  | wrapped (context : String) (inner : GoError)
  | other (text : String)
deriving DecidableEq, Repr

/-- The format produced by `InvalidEventError.Error()` (worker.go line 37):
`fmt.Sprintf("[Invalid Event: %s] %s", e.event, e.msg)`. -/
def invalidEventText (event msg : String) : String :=
  "[Invalid Event: " ++ event ++ "] " ++ msg

/-- The `Error()` method of each modelled error value.  A pointer to an
`InvalidEventError` prints exactly the same text as the value, because the
pointer's method set includes the value-receiver `Error()`. -/
def GoError.errorString : GoError → String
  | .invalidEvent ev msg => invalidEventText ev msg
  | .invalidEventPtr ev msg => invalidEventText ev msg
  | .wrapped ctx inner => ctx ++ ": " ++ inner.errorString
  | .other text => text

/-- The type assertion `_, ok := err.(InvalidEventError)` of worker.go
line 121: true exactly when the dynamic type is the concrete value type
`InvalidEventError` — false for `*InvalidEventError` and for wrappers. -/
def GoError.isInvalidEventValue : GoError → Bool
  | .invalidEvent _ _ => true
  | _ => false

/-- `NewInvalidEventError` (worker.go lines 40-42): builds an
`InvalidEventError` value. -/
def NewInvalidEventError (event msg : String) : GoError :=
  GoError.invalidEvent event msg

/-- `aws.StringValue`: dereference a `*string`, yielding `""` for nil. -/
def stringValue : Option String → String
  | some s => s
  | none => ""

/-- The fields of `sqs.Message` this package touches: the body (opaque here)
and the receipt handle (`*string` in the SDK, hence `Option String`). -/
structure Message where
  body : Option String
  receiptHandle : Option String
deriving DecidableEq, Repr

/-- `sqs.DeleteMessageInput` as built at worker.go lines 127-130:
`QueueUrl: aws.String(config.QueueURL)`, `ReceiptHandle: m.ReceiptHandle`. -/
structure DeleteMessageInput where
  queueUrl : String
  receiptHandle : Option String
deriving DecidableEq, Repr

/-- One log emission.  `debug`/`info`/`error` are the `LoggerIFace` calls on
`config.Log`; `println` is the Go standard-library `log.Println` used at
worker.go line 89 for receive errors (default severity, not the injected
logger). -/
inductive LogEntry where
  | debug (s : String)
  | info (s : String)
  | error (s : String)
  | println (s : String)
deriving DecidableEq, Repr

/-- True exactly for debug-severity entries. -/
def LogEntry.isDebugEntry : LogEntry → Bool
  | .debug _ => true
  | _ => false

/-- The observable side effects of one `handleMessage` call: the log entries
emitted through `config.Log`, in order, and the `DeleteMessage` calls issued
to the queue client, in order. -/
structure Effects where
  logs : List LogEntry
  deletes : List DeleteMessageInput
deriving DecidableEq, Repr

/-- Modelled from the spec: the repository's `LoggerIFace` interface and its
default `logger` implementation are not under src/ (worker.go only names
them).  The spec says the default is "a default console/no-op logger"; the
model only needs to distinguish that default value from any other logger. -/
inductive LoggerIFace where
  | defaultLogger
  | customLogger (id : Nat)
deriving DecidableEq, Repr

/-- `Config` (worker.go lines 15-20): queue URL, max batch size and wait
seconds (both `int64` in Go; the values occurring here are small and
non-negative), and the logger reference. -/
structure Config where
  queueURL : String
  maxNumberOfMessage : Int
  waitTimeSecond : Int
  log : LoggerIFace
deriving DecidableEq, Repr

/-- `DefaultConfigForQueueURL` (worker.go lines 44-52): the given URL with
`MaxNumberOfMessage: 10`, `WaitTimeSecond: 20`, `Log: &logger{}`. -/
def DefaultConfigForQueueURL (url : String) : Config :=
  ⟨url, 10, 20, LoggerIFace.defaultLogger⟩

/-- The package-level variable `DefaultConfig` (worker.go lines 55-69):
empty queue URL, `MaxNumberOfMessage: 10`, `WaitTimeSecond: 20`,
`Log: &logger{}`. -/
def DefaultConfig : Config :=
  ⟨"", 10, 20, LoggerIFace.defaultLogger⟩

/-- The deletion path of `handleMessage` (worker.go lines 127-137): build
the `DeleteMessageInput` from the configured queue URL and the message's
receipt handle, issue the delete, return the delete error if any, otherwise
emit the success debug log and return nil.  `preLogs` are the entries the
caller already emitted before reaching this point (the invalid-event error
log, when present). -/
def deletePhase (config : Config) (svcDelete : DeleteMessageInput → Option GoError)
    (m : Message) (preLogs : List LogEntry) : Effects × Option GoError :=
  let params : DeleteMessageInput := ⟨config.queueURL, m.receiptHandle⟩
  match svcDelete params with
  | some derr => (⟨preLogs, [params]⟩, some derr)
  | none =>
      (⟨preLogs ++ [LogEntry.debug
          ("worker: deleted message from queue: " ++ stringValue m.receiptHandle)],
        [params]⟩, none)

/-- `handleMessage` (worker.go lines 118-138).  `h` is the handler's
`HandleMessage` (nil error = `none`); `svcDelete` is the queue client's
`DeleteMessage`, giving the error result of a call with the given input.
Control flow mirrors the source: invoke the handler; if the error's dynamic
type is the concrete `InvalidEventError`, log it at error severity and fall
through to deletion; any other non-nil error returns immediately; nil falls
through to deletion. -/
def handleMessage (config : Config) (svcDelete : DeleteMessageInput → Option GoError)
    (m : Message) (h : Message → Option GoError) : Effects × Option GoError :=
  match h m with
  | some e =>
      if e.isInvalidEventValue then
        deletePhase config svcDelete m [LogEntry.error e.errorString]
      else
        (⟨[], []⟩, some e)
  | none => deletePhase config svcDelete m []

/-- `sqs.ReceiveMessageInput` as built at worker.go lines 78-85: queue URL,
max number of messages, the attribute selector `["All"]`, wait seconds. -/
structure ReceiveMessageInput where
  queueUrl : String
  maxNumberOfMessages : Int
  messageAttributeNames : List String
  waitTimeSeconds : Int
deriving DecidableEq, Repr

/-- The receive request parameters `Start` builds from a configuration. -/
def receiveParams (config : Config) : ReceiveMessageInput :=
  ⟨config.queueURL, config.maxNumberOfMessage, ["All"], config.waitTimeSecond⟩

/-- One observable event of the `Start` loop, in program order:
a log emission, the issuing of the k-th receive call, or the (synchronous)
invocation of the dispatcher `run` on the k-th iteration's batch. -/
inductive Event where
  | logged (e : LogEntry)
  | receiveIssued (k : Nat) (params : ReceiveMessageInput)
  | dispatched (k : Nat) (msgs : List Message)
deriving DecidableEq, Repr

/-- True exactly for dispatcher-invocation events. -/
def Event.isDispatch : Event → Bool
  | .dispatched _ _ => true
  | _ => false

/-- The events of the k-th iteration of the `Start` loop (worker.go lines
73-95), given the result of the k-th `ReceiveMessage` call (Go returns
`(resp, err)`; `Except.error e` models `err != nil`): emit the
"Start Polling" debug log, issue the receive; on error, `log.Println` it
and continue; on success with a non-empty batch, `run` first logs the
info-level count (worker.go line 101) and the batch is dispatched; on an
empty batch nothing more happens before the next iteration. -/
def startIterEvents (config : Config) (k : Nat)
    (recvResult : Except GoError (List Message)) : List Event :=
  [Event.logged (LogEntry.debug "worker: Start Polling"),
   Event.receiveIssued k (receiveParams config)] ++
  match recvResult with
  | .error e => [Event.logged (LogEntry.println e.errorString)]
  | .ok msgs =>
      if msgs.length > 0 then
        [Event.logged (LogEntry.info
            ("worker: Received " ++ toString msgs.length ++ " messages")),
         Event.dispatched k msgs]
      else []

/-- The event trace of the first `n` iterations of `Start`'s infinite loop,
with `recv k` the result of the k-th receive call.  The loop body has no
`break` or `return`, so the trace is defined for every `n`: no receive
outcome terminates the loop. -/
def startTrace (config : Config) (recv : Nat → Except GoError (List Message)) :
    Nat → List Event
  | 0 => []
  | n + 1 => startTrace config recv n ++ startIterEvents config n (recv n)

/-- The concurrent units of work `run` launches (worker.go lines 103-113):
the `for i := range messages` loop spawns exactly one goroutine per message
index. -/
def launchedUnits (messages : List Message) : List (Fin messages.length) :=
  List.finRange messages.length

/-- The `sync.WaitGroup` counter inside `run` after `wg.Add(numMessages)`
(worker.go line 104) and the `wg.Done()` calls of the units listed in
`completed` (each goroutine defers exactly one `Done`, so `completed` is a
duplicate-free list of unit indices, in whatever order the scheduler let
them finish). -/
def wgCounter (n : Nat) (completed : List (Fin n)) : Int :=
  (n : Int) - (completed.length : Int)

/-- `wg.Wait()` (worker.go line 115) unblocks exactly when the counter has
reached zero. -/
def WgWaitReturns (n : Nat) (completed : List (Fin n)) : Prop :=
  wgCounter n completed = 0

instance (n : Nat) (completed : List (Fin n)) : Decidable (WgWaitReturns n completed) :=
  inferInstanceAs (Decidable (wgCounter n completed = 0))

/-- Address of the package-level `DefaultConfig` variable in the pointer
model of `Start`. -/
def defaultConfigAddr : Nat := 0

/-- The pointer state relevant to `Start`'s nil-config fallback: the
caller's own `*Config` variable and `Start`'s `config` parameter.  Go
passes arguments by value, so the parameter holds a copy of the caller's
pointer. -/
structure StartPtrState where
  callerPtr : Option Nat
  localPtr : Option Nat
deriving DecidableEq, Repr

/-- Calling `Start(config, ...)`: the parameter receives a copy of the
caller's pointer value. -/
def startCall (callerPtr : Option Nat) : StartPtrState :=
  ⟨callerPtr, callerPtr⟩

/-- The nil check at the top of each loop iteration (worker.go lines
74-76): `if config == nil { config = &DefaultConfig }` assigns to `Start`'s
local parameter only; the caller's variable is not reachable from it. -/
def nilCheck (s : StartPtrState) : StartPtrState :=
  match s.localPtr with
  | none => ⟨s.callerPtr, some defaultConfigAddr⟩
  | some a => ⟨s.callerPtr, some a⟩

/-- Dereference a modelled `*Config` in the heap of the nil-caller
scenario, where the only allocated configuration is the package-level
`DefaultConfig` at `defaultConfigAddr`. -/
def derefConfig : Option Nat → Option Config
  | some a => if a = defaultConfigAddr then some DefaultConfig else none
  | none => none

/-- Empty message for concrete witnesses. -/
def emptyMessage : Message := ⟨none, none⟩

/-- Message with a concrete receipt handle for concrete witnesses. -/
def messageRh : Message := ⟨none, some "rh"⟩

/-- A queue client whose delete always succeeds, for concrete witnesses. -/
def deleteOk : DeleteMessageInput → Option GoError := fun _ => none

/-- A queue client whose delete always fails, for concrete witnesses. -/
def deleteFail : DeleteMessageInput → Option GoError :=
  fun _ => some (GoError.other "dfail")

/-- A handler that always succeeds, for concrete witnesses. -/
def handlerNil : Message → Option GoError := fun _ => none

/-- A handler that always fails with an unclassified error, for concrete
witnesses. -/
def handlerBoom : Message → Option GoError := fun _ => some (GoError.other "boom")

/-- A receive oracle that always fails, for concrete witnesses. -/
def recvErrTest : Nat → Except GoError (List Message) :=
  fun _ => Except.error (GoError.other "boom")

/-- A receive oracle that always yields a singleton batch, for concrete
witnesses. -/
def recvOkTest : Nat → Except GoError (List Message) :=
  fun _ => Except.ok [emptyMessage]

/-- A concrete 3-message batch for the dispatcher witness. -/
def msgsTest : List Message := [emptyMessage, emptyMessage, emptyMessage]

/-- A completion order for the units of `msgsTest` (unit 2 first, then 0,
then 1), for the dispatcher witness. -/
def completedTest : List (Fin msgsTest.length) :=
  [⟨2, by decide⟩, ⟨0, by decide⟩, ⟨1, by decide⟩]

/-- In every iteration, whatever the receive result, the iteration's events
include issuing the receive call with the configured parameters. -/
theorem receive_mem_iter (config : Config) (k : Nat)
    (r : Except GoError (List Message)) :
    Event.receiveIssued k (receiveParams config) ∈ startIterEvents config k r := by
  cases r with
  | error e => simp [startIterEvents]
  | ok msgs =>
      by_cases h : msgs.length > 0 <;> simp [startIterEvents, h]

/-- C1: when the handler returns an error whose dynamic type is the concrete
`InvalidEventError` value type, `handleMessage` emits that error's text at
error severity, issues exactly one delete call (for the configured queue URL
and the message's receipt handle), and its return value is exactly the
delete call's outcome — the invalid-event error itself is never propagated
to the caller. -/
theorem handleMessage_invalidEvent_absorbed (config : Config)
    (svcDelete : DeleteMessageInput → Option GoError) (m : Message) (ev ms : String) :
    (handleMessage config svcDelete m
        (fun _ => some (GoError.invalidEvent ev ms))).1.deletes
      = [⟨config.queueURL, m.receiptHandle⟩]
    ∧ LogEntry.error (GoError.invalidEvent ev ms).errorString
        ∈ (handleMessage config svcDelete m
            (fun _ => some (GoError.invalidEvent ev ms))).1.logs
    ∧ (handleMessage config svcDelete m
        (fun _ => some (GoError.invalidEvent ev ms))).2
      = svcDelete ⟨config.queueURL, m.receiptHandle⟩ := by
  simp only [handleMessage, GoError.isInvalidEventValue, if_true, deletePhase]
  cases hd : svcDelete ⟨config.queueURL, m.receiptHandle⟩ <;> simp

/-- C2: when the handler returns a non-nil error not classified as the
concrete invalid-event type, `handleMessage` issues no delete call and
returns exactly that error. -/
theorem handleMessage_other_error (config : Config)
    (svcDelete : DeleteMessageInput → Option GoError) (m : Message) (e : GoError)
    (he : e.isInvalidEventValue = false) :
    (handleMessage config svcDelete m (fun _ => some e)).1.deletes = []
    ∧ (handleMessage config svcDelete m (fun _ => some e)).2 = some e := by
  simp [handleMessage, he]

/-- Witness for C2 at a concrete input: an `other` error is not the
invalid-event type, is returned unchanged, and triggers no delete. -/
theorem handleMessage_other_error_witness :
    (GoError.other "boom").isInvalidEventValue = false
    ∧ ((handleMessage DefaultConfig deleteOk emptyMessage handlerBoom).1.deletes = []
       ∧ (handleMessage DefaultConfig deleteOk emptyMessage handlerBoom).2
          = some (GoError.other "boom")) :=
  ⟨rfl, handleMessage_other_error DefaultConfig deleteOk emptyMessage
      (GoError.other "boom") rfl⟩

/-- C3: when the handler returns nil, `handleMessage` issues exactly one
delete call, whose parameters are the configured queue URL and the message's
receipt handle; and if that delete succeeds, the only log entry emitted is
the debug entry containing the receipt handle, and the function returns
nil. -/
theorem handleMessage_success_deletes (config : Config)
    (svcDelete : DeleteMessageInput → Option GoError) (m : Message) :
    (handleMessage config svcDelete m (fun _ => none)).1.deletes
      = [⟨config.queueURL, m.receiptHandle⟩]
    ∧ (svcDelete ⟨config.queueURL, m.receiptHandle⟩ = none →
        (handleMessage config svcDelete m (fun _ => none)).1.logs
          = [LogEntry.debug
              ("worker: deleted message from queue: " ++ stringValue m.receiptHandle)]
        ∧ (handleMessage config svcDelete m (fun _ => none)).2 = none) := by
  constructor
  · simp only [handleMessage, deletePhase]
    cases svcDelete ⟨config.queueURL, m.receiptHandle⟩ <;> simp
  · intro hd
    simp [handleMessage, deletePhase, hd]

/-- Witness for C3 at a concrete input: a handler returning nil with a
succeeding delete yields one delete call, the debug log with the receipt
handle, and a nil return. -/
theorem handleMessage_success_deletes_witness :
    (handleMessage DefaultConfig deleteOk messageRh handlerNil).1.deletes
      = [⟨DefaultConfig.queueURL, messageRh.receiptHandle⟩]
    ∧ (handleMessage DefaultConfig deleteOk messageRh handlerNil).1.logs
      = [LogEntry.debug
          ("worker: deleted message from queue: " ++ stringValue messageRh.receiptHandle)]
    ∧ (handleMessage DefaultConfig deleteOk messageRh handlerNil).2 = none :=
  have h := handleMessage_success_deletes DefaultConfig deleteOk messageRh
  ⟨h.1, (h.2 rfl).1, (h.2 rfl).2⟩

/-- C4: on the deletion path (handler returned nil or a concrete
invalid-event error), if the delete call fails with an error, `handleMessage`
returns exactly that deletion error and emits no debug-severity entry (in
particular not the deletion-success debug log). -/
theorem handleMessage_delete_failure (config : Config)
    (svcDelete : DeleteMessageInput → Option GoError) (m : Message)
    (hres : Option GoError) (derr : GoError)
    (hpath : hres = none ∨ ∃ ev ms, hres = some (GoError.invalidEvent ev ms))
    (hd : svcDelete ⟨config.queueURL, m.receiptHandle⟩ = some derr) :
    (handleMessage config svcDelete m (fun _ => hres)).2 = some derr
    ∧ (handleMessage config svcDelete m (fun _ => hres)).1.logs.countP
        LogEntry.isDebugEntry = 0 := by
  rcases hpath with h | ⟨ev, ms, h⟩ <;> subst h <;>
    simp [handleMessage, deletePhase, hd, GoError.isInvalidEventValue,
      LogEntry.isDebugEntry]

/-- Witness for C4 at a concrete input: handler returns nil, delete fails;
the delete error is returned and no debug entry is logged. -/
theorem handleMessage_delete_failure_witness :
    ((none : Option GoError) = none)
    ∧ (deleteFail ⟨DefaultConfig.queueURL, emptyMessage.receiptHandle⟩
        = some (GoError.other "dfail"))
    ∧ ((handleMessage DefaultConfig deleteFail emptyMessage handlerNil).2
          = some (GoError.other "dfail")
       ∧ (handleMessage DefaultConfig deleteFail emptyMessage
            handlerNil).1.logs.countP LogEntry.isDebugEntry = 0) :=
  ⟨rfl, rfl,
   handleMessage_delete_failure DefaultConfig deleteFail
     emptyMessage none (GoError.other "dfail") (Or.inl rfl) rfl⟩

/-- C9: `DefaultConfigForQueueURL url` has queue URL `url`, max batch size
10, wait time 20 seconds, and the default logger; the package-level
`DefaultConfig` has the empty queue URL and those same defaults. -/
theorem defaultConfig_values (url : String) :
    DefaultConfigForQueueURL url = ⟨url, 10, 20, LoggerIFace.defaultLogger⟩
    ∧ DefaultConfig = ⟨"", 10, 20, LoggerIFace.defaultLogger⟩ :=
  ⟨rfl, rfl⟩

/-- C10: invalid-event detection matches only the concrete value type: a
`*InvalidEventError` pointer, and any error wrapping an `InvalidEventError`,
print the same invalid-event text but are not recognized — `handleMessage`
issues no delete call and returns them to the caller unchanged. -/
theorem handleMessage_pointer_not_detected (config : Config)
    (svcDelete : DeleteMessageInput → Option GoError) (m : Message)
    (ev ms ctx : String) :
    (GoError.invalidEventPtr ev ms).errorString
      = (GoError.invalidEvent ev ms).errorString
    ∧ (handleMessage config svcDelete m
        (fun _ => some (GoError.invalidEventPtr ev ms))).1.deletes = []
    ∧ (handleMessage config svcDelete m
        (fun _ => some (GoError.invalidEventPtr ev ms))).2
      = some (GoError.invalidEventPtr ev ms)
    ∧ (handleMessage config svcDelete m
        (fun _ => some (GoError.wrapped ctx (GoError.invalidEvent ev ms)))).1.deletes = []
    ∧ (handleMessage config svcDelete m
        (fun _ => some (GoError.wrapped ctx (GoError.invalidEvent ev ms)))).2
      = some (GoError.wrapped ctx (GoError.invalidEvent ev ms)) := by
  refine ⟨rfl, ?_⟩
  simp [handleMessage, GoError.isInvalidEventValue]

/-- C5: in an iteration whose receive call fails with error `e`, the
iteration's events are exactly the start-polling debug log, the receive,
and one default-severity log of the error: the dispatcher is not invoked,
exactly one log entry is emitted for the error, and the next iteration's
receive still appears in the trace — the loop proceeds with no backoff and
never terminates because of a receive error. -/
theorem start_receive_error_retries (config : Config)
    (recv : Nat → Except GoError (List Message)) (k : Nat) (e : GoError)
    (h : recv k = Except.error e) :
    startIterEvents config k (recv k)
      = [Event.logged (LogEntry.debug "worker: Start Polling"),
         Event.receiveIssued k (receiveParams config),
         Event.logged (LogEntry.println e.errorString)]
    ∧ (startIterEvents config k (recv k)).any Event.isDispatch = false
    ∧ (startIterEvents config k (recv k)).count
        (Event.logged (LogEntry.println e.errorString)) = 1
    ∧ Event.receiveIssued (k + 1) (receiveParams config)
        ∈ startTrace config recv (k + 2) := by
  refine ⟨by simp [startIterEvents, h], by simp [startIterEvents, h, Event.isDispatch],
    ?_, ?_⟩
  · simp [startIterEvents, h, List.count_cons]
  · have hm := receive_mem_iter config (k + 1) (recv (k + 1))
    simp only [startTrace, List.mem_append]
    exact Or.inr hm

/-- Witness for C5 at a concrete input: a receive oracle that always fails
with the error `boom`, at iteration 0. -/
theorem start_receive_error_retries_witness :
    recvErrTest 0 = Except.error (GoError.other "boom")
    ∧ (startIterEvents DefaultConfig 0 (recvErrTest 0)
        = [Event.logged (LogEntry.debug "worker: Start Polling"),
           Event.receiveIssued 0 (receiveParams DefaultConfig),
           Event.logged (LogEntry.println (GoError.other "boom").errorString)]
       ∧ (startIterEvents DefaultConfig 0 (recvErrTest 0)).any Event.isDispatch = false
       ∧ (startIterEvents DefaultConfig 0 (recvErrTest 0)).count
           (Event.logged (LogEntry.println (GoError.other "boom").errorString)) = 1
       ∧ Event.receiveIssued 1 (receiveParams DefaultConfig)
           ∈ startTrace DefaultConfig recvErrTest 2) :=
  ⟨rfl, start_receive_error_retries DefaultConfig recvErrTest 0 (GoError.other "boom") rfl⟩

/-- C7: the dispatcher is invoked in an iteration exactly when that
iteration's receive succeeded with one or more messages; with a non-empty
batch the iteration's events are the start-polling debug log, the receive,
the info-level count log, and the dispatch — and in the overall trace the
dispatch is complete before the next iteration's receive is issued; with an
empty batch the iteration emits nothing after the receive. -/
theorem start_dispatch_iff (config : Config)
    (recv : Nat → Except GoError (List Message)) (k : Nat) :
    ((startIterEvents config k (recv k)).any Event.isDispatch = true
        ↔ ∃ msgs, recv k = Except.ok msgs ∧ 0 < msgs.length)
    ∧ (∀ msgs, recv k = Except.ok msgs → 0 < msgs.length →
        startIterEvents config k (recv k)
          = [Event.logged (LogEntry.debug "worker: Start Polling"),
             Event.receiveIssued k (receiveParams config),
             Event.logged (LogEntry.info
               ("worker: Received " ++ toString msgs.length ++ " messages")),
             Event.dispatched k msgs]
        ∧ ∃ lpre lpost, startTrace config recv (k + 2)
              = lpre ++ Event.dispatched k msgs :: lpost
            ∧ Event.receiveIssued (k + 1) (receiveParams config) ∈ lpost)
    ∧ (∀ msgs, recv k = Except.ok msgs → msgs.length = 0 →
        startIterEvents config k (recv k)
          = [Event.logged (LogEntry.debug "worker: Start Polling"),
             Event.receiveIssued k (receiveParams config)]) := by
  refine ⟨?_, ?_, ?_⟩
  · cases h : recv k with
    | error e => simp [startIterEvents, Event.isDispatch]
    | ok msgs =>
        by_cases hlen : msgs.length > 0 <;>
          simp [startIterEvents, hlen, Event.isDispatch]
  · intro msgs h hlen
    have hiter : startIterEvents config k (recv k)
        = [Event.logged (LogEntry.debug "worker: Start Polling"),
           Event.receiveIssued k (receiveParams config),
           Event.logged (LogEntry.info
             ("worker: Received " ++ toString msgs.length ++ " messages")),
           Event.dispatched k msgs] := by
      simp [startIterEvents, h, hlen]
    refine ⟨hiter, startTrace config recv k
        ++ [Event.logged (LogEntry.debug "worker: Start Polling"),
            Event.receiveIssued k (receiveParams config),
            Event.logged (LogEntry.info
              ("worker: Received " ++ toString msgs.length ++ " messages"))],
      startIterEvents config (k + 1) (recv (k + 1)), ?_,
      receive_mem_iter config (k + 1) (recv (k + 1))⟩
    simp only [startTrace, hiter, List.append_assoc, List.cons_append,
      List.nil_append, List.singleton_append]
  · intro msgs h hlen
    simp [startIterEvents, h, hlen]

/-- Witness for C7 at a concrete input: a receive oracle that always
returns the singleton batch `[emptyMessage]`, at iteration 0. -/
theorem start_dispatch_iff_witness :
    recvOkTest 0 = Except.ok [emptyMessage]
    ∧ 0 < ([emptyMessage] : List Message).length
    ∧ (startIterEvents DefaultConfig 0 (recvOkTest 0)).any Event.isDispatch = true
    ∧ startIterEvents DefaultConfig 0 (recvOkTest 0)
        = [Event.logged (LogEntry.debug "worker: Start Polling"),
           Event.receiveIssued 0 (receiveParams DefaultConfig),
           Event.logged (LogEntry.info
             ("worker: Received " ++ toString ([emptyMessage] : List Message).length
               ++ " messages")),
           Event.dispatched 0 [emptyMessage]] :=
  have h := start_dispatch_iff DefaultConfig recvOkTest 0
  ⟨rfl, by decide, h.1.mpr ⟨[emptyMessage], rfl, by decide⟩,
    (h.2.1 [emptyMessage] rfl (by decide)).1⟩

/-- C6: `run` launches exactly one concurrent unit per message of the
batch; for every batch size up to 10 and every duplicate-free completion
order of the units, `wg.Wait` unblocks exactly when every launched unit has
called `Done` — regardless of the order — and when it does, the number of
completed units equals the number launched. -/
theorem run_full_join (messages : List Message) (hn : messages.length ≤ 10)
    (completed : List (Fin messages.length)) (hnd : completed.Nodup) :
    (launchedUnits messages).length = messages.length
    ∧ (WgWaitReturns messages.length completed
        ↔ ∀ i : Fin messages.length, i ∈ completed)
    ∧ (WgWaitReturns messages.length completed →
        completed.length = (launchedUnits messages).length) := by
  have hlen : WgWaitReturns messages.length completed
      ↔ completed.length = messages.length := by
    unfold WgWaitReturns wgCounter
    omega
  have hiff : completed.length = messages.length
      ↔ ∀ i : Fin messages.length, i ∈ completed := by
    constructor
    · intro hc i
      have hcard : completed.toFinset.card = completed.length :=
        List.toFinset_card_of_nodup hnd
      have huniv : completed.toFinset = Finset.univ :=
        Finset.eq_univ_of_card completed.toFinset
          (by rw [hcard, hc, Fintype.card_fin])
      have : i ∈ completed.toFinset := by rw [huniv]; exact Finset.mem_univ i
      exact List.mem_toFinset.mp this
    · intro hall
      have hle : completed.length ≤ messages.length := by
        have := hnd.length_le_card
        simpa [Fintype.card_fin] using this
      have hge : messages.length ≤ completed.length := by
        have hsub : Finset.univ ⊆ completed.toFinset := by
          intro i _
          exact List.mem_toFinset.mpr (hall i)
        have hcard : completed.toFinset.card = completed.length :=
          List.toFinset_card_of_nodup hnd
        have := Finset.card_le_card hsub
        simpa [hcard, Fintype.card_fin] using this
      omega
  refine ⟨by simp [launchedUnits], hlen.trans hiff, ?_⟩
  intro hw
  have := hlen.mp hw
  simp [launchedUnits, this]

/-- Witness for C6 at a concrete input: a 3-message batch whose units
complete in the order 2, 0, 1. -/
theorem run_full_join_witness :
    msgsTest.length ≤ 10
    ∧ completedTest.Nodup
    ∧ WgWaitReturns msgsTest.length completedTest
    ∧ completedTest.length = (launchedUnits msgsTest).length :=
  ⟨by decide, by decide, by decide,
    (run_full_join msgsTest (by decide) completedTest (by decide)).2.2 (by decide)⟩

/-- Counterexample for C8 as stated: when `Start` is called with a nil
configuration pointer, the substitution at the top of the first iteration
sets `Start`'s local parameter to the address of `DefaultConfig`, but the
caller-visible pointer variable is unchanged (still nil) — it is not
mutated, because Go passes the pointer by value. -/
theorem start_nil_config_caller_unchanged :
    (nilCheck (startCall none)).localPtr = some defaultConfigAddr
    ∧ (nilCheck (startCall none)).callerPtr = none
    ∧ ¬ (nilCheck (startCall none)).callerPtr = some defaultConfigAddr := by
  decide

/-- C8 (amended): with a nil configuration, the first iteration substitutes
the process-wide `DefaultConfig` into `Start`'s local copy of the pointer,
which then dereferences to `DefaultConfig` (shared global state for all
subsequent iterations of that `Start` call — the nil check is idempotent);
the caller's own pointer is never modified. -/
theorem start_nil_config_substitution (p : Option Nat) :
    (nilCheck (startCall p)).callerPtr = p
    ∧ (p = none →
        (nilCheck (startCall p)).localPtr = some defaultConfigAddr
        ∧ derefConfig (nilCheck (startCall p)).localPtr = some DefaultConfig)
    ∧ nilCheck (nilCheck (startCall p)) = nilCheck (startCall p) := by
  refine ⟨?_, ?_, ?_⟩ <;> cases p <;>
    simp [nilCheck, startCall, derefConfig, defaultConfigAddr]

/-- Witness for C8 (amended) at the concrete input: a nil caller pointer. -/
theorem start_nil_config_substitution_witness :
    ((none : Option Nat) = none)
    ∧ (nilCheck (startCall none)).callerPtr = none
    ∧ (nilCheck (startCall none)).localPtr = some defaultConfigAddr
    ∧ derefConfig (nilCheck (startCall none)).localPtr = some DefaultConfig
    ∧ nilCheck (nilCheck (startCall none)) = nilCheck (startCall none) :=
  have h := start_nil_config_substitution none
  ⟨rfl, h.1, (h.2.1 rfl).1, (h.2.1 rfl).2, h.2.2⟩

end Worker
